import Mathlib

set_option maxRecDepth 40000

/-!
Verification development for the lldb-eval expression front-end
(src/lldb-eval/parser.cc): a shallow embedding of the hand-written
recursive-descent parser, its numeric literal typer, its type-declaration
renderer and its error discipline, together with theorems about the
properties the specification states.

The token stream (the clang preprocessor) is an external collaborator: it
is modelled as a list of classified tokens, indexed by a cursor position;
reading past the end yields the end-of-input token, which matches the
idempotent end-of-input behaviour of the real lexer.  Numeric literal
classification (clang NumericLiteralParser) is likewise external: its
output flags travel on the token.  The recursive functions of the parser
are embedded with an explicit fuel argument; running out of fuel bails
out with an error, a branch never taken for adequate fuel.
-/

namespace LldbEval

/-- Token kinds used by the parser, mirroring the clang token kinds that
appear in src/lldb-eval/parser.cc. -/
inductive TokenKind where
  | unknown | eof | identifier | numeric_constant | coloncolon
  | l_paren | r_paren | l_square | r_square
  | less | greater | lessequal | greaterequal | lessless | greatergreater
  | equalequal | exclaimequal
  | plus | minus | star | slash | percent | amp | pipe | caret | tilde | exclaim
  | ampamp | pipepipe | plusplus | minusminus
  | question | colon | comma | period | arrow
  | kw_true | kw_false | kw_nullptr | kw_this | kw_const | kw_volatile
  | kw_char | kw_char16_t | kw_char32_t | kw_wchar_t | kw_bool | kw_short
  | kw_int | kw_long | kw_signed | kw_unsigned | kw_float | kw_double | kw_void
  deriving DecidableEq, Repr

/-- Result of the external clang NumericLiteralParser for one numeric
token: suffix flags, radix, the integer value, and the floating
conversion status.  The field floatConversionError models the condition
(result and opOverflow) or ((result and opUnderflow) and value.isZero)
checked by Parser::ParseFloatingLiteral. -/
structure NumLit where
  hadError : Bool := false
  isUnsigned : Bool := false
  isLong : Bool := false
  isLongLong : Bool := false
  isFloat : Bool := false
  isFloatingLiteral : Bool := false
  isIntegerLiteral : Bool := false
  radix : Nat := 10
  intValue : Nat := 0
  floatConversionError : Bool := false
  deriving DecidableEq, Repr

/-- A classified token: kind, spelling, source location (byte offset),
and, for numeric constants, the literal classification. -/
structure Token where
  kind : TokenKind
  spelling : String := ""
  loc : Nat := 0
  nlit : Option NumLit := none
  deriving DecidableEq, Repr

/-- Modelled from the spec: the closed set of error codes (ErrorCode in
lldb-eval/ast.h, which is not part of src/); section 6 of the spec lists
exactly these. -/
inductive ErrorCode where
  | kUnknown | kInvalidExpressionSyntax | kInvalidNumericLiteral
  | kInvalidOperandType | kUndeclaredIdentifier | kNotImplemented
  deriving DecidableEq, Repr

/-- Modelled from the spec: the Error record (lldb-eval Error class, not
part of src/) stores an error code and the diagnostic; the rendered
message text is not needed by any claim, so only the code and the
location are kept. -/
structure ParseError where
  code : ErrorCode
  loc : Nat
  deriving DecidableEq, Repr

/-- Mutable parser state: the token-stream cursor (index of the next
token the lexer will produce), the current token (token_), and the error
slot (error_). -/
structure State where
  pos : Nat
  cur : Token
  err : Option ParseError
  deriving DecidableEq, Repr

/-- The end-of-input token produced when lexing past the end. -/
def eofToken : Token := { kind := TokenKind.eof }

/-- Token at index i of the stream; end-of-input past the end. -/
def getTok (input : List Token) (i : Nat) : Token := input.getD i eofToken

/-- Parser::ConsumeToken: at end-of-input do nothing (bail-out mode),
otherwise lex the next token. -/
def ConsumeToken (input : List Token) (s : State) : State :=
  if s.cur.kind = TokenKind.eof then s
  else { pos := s.pos + 1, cur := getTok input s.pos, err := s.err }

/-- Parser::BailOut: if an error is already set keep it (first error
wins); otherwise record the error and force the current token to
end-of-input.  Note setKind changes only the kind of token_. -/
def BailOut (c : ErrorCode) (l : Nat) (s : State) : State :=
  match s.err with
  | some _ => s
  | none =>
      { pos := s.pos, cur := { s.cur with kind := TokenKind.eof },
        err := some { code := c, loc := l } }

/-- Parser::Expect: bail out with kUnknown unless the current token has
the given kind. -/
def Expect (k : TokenKind) (s : State) : State :=
  if s.cur.kind = k then s else BailOut ErrorCode.kUnknown s.cur.loc s

/-- Parser::ExpectOneOf: bail out with kUnknown unless the current token
is one of the given kinds. -/
def ExpectOneOf (ks : List TokenKind) (s : State) : State :=
  if s.cur.kind ∈ ks then s else BailOut ErrorCode.kUnknown s.cur.loc s

/-- Preprocessor LookAhead(0): the token right after the current one. -/
def lookAhead (input : List Token) (s : State) : Token := getTok input s.pos

/-- Widths, in bits, of int, long and long long on the target; the
source reads them with type_width. -/
structure Widths where
  int : Nat
  long : Nat
  longlong : Nat
  deriving DecidableEq, Repr

/-- The basic types the parser can assign to literals (subset of
lldb BasicType used in src/lldb-eval/parser.cc). -/
inductive BasicType where
  | eBasicTypeInt | eBasicTypeUnsignedInt
  | eBasicTypeLong | eBasicTypeUnsignedLong
  | eBasicTypeLongLong | eBasicTypeUnsignedLongLong
  | eBasicTypeFloat | eBasicTypeDouble
  deriving DecidableEq, Repr

/-- Types as seen through the debugger type handles (lldb SBType): a
resolved named type, with pointer and reference constructors applied by
ResolveTypeDeclarators. -/
inductive CType where
  | named (name : String)
  | basic (b : BasicType)
  | pointer (t : CType)
  | reference (t : CType)
  deriving DecidableEq, Repr

/-- SBType.IsReferenceType. -/
def CType.isReferenceType : CType → Bool
  | CType.reference _ => true
  | _ => false

/-- The expression context (symbol resolver): known type names with the
types they resolve to, known identifier bindings, and the target integer
widths used by the numeric literal typer. -/
structure Ctx where
  types : List (String × CType) := []
  values : List String := []
  widths : Widths := { int := 32, long := 64, longlong := 64 }
  deriving DecidableEq, Repr

/-- Context.ResolveTypeByName. -/
def resolveTypeByName (ctx : Ctx) (name : String) : Option CType :=
  (ctx.types.find? (fun p => p.1 = name)).map (fun p => p.2)

/-- Context.LookupIdentifier: whether the name is bound in the frame. -/
def lookupIdentifier (ctx : Ctx) (name : String) : Bool :=
  ctx.values.contains name

/-- The fixed collaborators of one parse: the token stream and the
expression context. -/
structure Env where
  input : List Token
  ctx : Ctx
  deriving Repr

/-- Index of the first occurrence of pat in s (std::string::find). -/
def findSubstr : List Char → List Char → Option Nat
  | s, pat =>
    if pat.isPrefixOf s then some 0
    else
      match s with
      | [] => none
      | _ :: t => (findSubstr t pat).map (fun i => i + 1)

/-- StringReplace from src/lldb-eval/parser.cc: replace the first
occurrence of oldV in s by newV; if there is none, leave s unchanged. -/
def StringReplace (s oldV newV : String) : String :=
  match findSubstr s.data oldV.data with
  | none => s
  | some i =>
      String.mk (s.data.take i ++ newV.data ++ s.data.drop (i + oldV.data.length))

/-- Whether pat occurs as a substring of s. -/
def containsSubstring (s pat : String) : Bool :=
  (findSubstr s.data pat.data).isSome

/-- An accumulating type specification: the typename parts in order, and the
pointer or reference operators in order.  The members mirror typenames_
and ptr_operators_ of TypeDeclaration. -/
structure TypeDeclaration where
  typenames : List String := []
  ptrOperators : List TokenKind := []
  deriving DecidableEq, Repr

/-- Modelled from the spec: TypeDeclaration.IsValid (declared in
lldb-eval/parser.h, not part of src/) holds iff the typename sequence is
non-empty. -/
def TypeDeclaration.IsValid (d : TypeDeclaration) : Bool :=
  !d.typenames.isEmpty

/-- TypeDeclaration::GetBaseName: join the typename parts with single
spaces, then canonicalize with StringReplace (first occurrence only). -/
def TypeDeclaration.GetBaseName (d : TypeDeclaration) : String :=
  StringReplace (StringReplace (String.intercalate " " d.typenames)
    "short int" "short") "long int" "long"

/-- TypeDeclaration::GetName: the base name, then, if there are pointer
operators, a single space and one star or ampersand per operator. -/
def TypeDeclaration.GetName (d : TypeDeclaration) : String :=
  let name := d.GetBaseName
  let name := if d.ptrOperators.length > 0 then name ++ " " else name
  d.ptrOperators.foldl
    (fun acc tok =>
      if tok = TokenKind.star then acc ++ "*"
      else if tok = TokenKind.amp then acc ++ "&"
      else acc) name

/-- APInt.isIntN: the value fits in n bits (values here are the
non-negative magnitudes held by the 64-bit APInt of
Parser::ParseIntegerLiteral). -/
def isIntN (n value : Nat) : Bool := value < 2 ^ n

/-- PickIntegerType from src/lldb-eval/parser.cc.  The nested early
returns of the source are flattened into a guard cascade: each branch
carries the conjunction of its block guard and its inner guard. -/
def PickIntegerType (w : Widths) (lit : NumLit) (value : Nat) : BasicType :=
  let unsignedIsAllowed := lit.isUnsigned || lit.radix ≠ 10
  if (!lit.isLong && !lit.isLongLong && isIntN w.int value) &&
      (!lit.isUnsigned && isIntN (w.int - 1) value) then
    BasicType.eBasicTypeInt
  else if (!lit.isLong && !lit.isLongLong && isIntN w.int value) &&
      unsignedIsAllowed then
    BasicType.eBasicTypeUnsignedInt
  else if (!lit.isLongLong && isIntN w.long value) &&
      (!lit.isUnsigned && isIntN (w.long - 1) value) then
    BasicType.eBasicTypeLong
  else if (!lit.isLongLong && isIntN w.long value) && unsignedIsAllowed then
    BasicType.eBasicTypeUnsignedLong
  else if isIntN w.longlong value &&
      (!lit.isUnsigned && isIntN (w.longlong - 1) value) then
    BasicType.eBasicTypeLongLong
  else if isIntN w.longlong value && unsignedIsAllowed then
    BasicType.eBasicTypeUnsignedLongLong
  else
    BasicType.eBasicTypeUnsignedLongLong

/-- The is_unsigned test of Parser::ParseIntegerLiteral. -/
def isUnsignedBasicType (t : BasicType) : Bool :=
  t = BasicType.eBasicTypeUnsignedInt || t = BasicType.eBasicTypeUnsignedLong ||
    t = BasicType.eBasicTypeUnsignedLongLong

/-- Scalar values held by literal nodes: typed integers (type, magnitude,
signedness as computed by ParseIntegerLiteral), floats (float vs double),
booleans and the null pointer. -/
inductive LitVal where
  | intV (ty : BasicType) (value : Nat) (isUnsigned : Bool)
  | floatV (isFloat : Bool)
  | boolV (b : Bool)
  | nullptrV
  deriving DecidableEq, Repr

/-- Member access kind of MemberOfNode. -/
inductive MemberOfKind where
  | ofObject | ofPointer
  deriving DecidableEq, Repr

/-- The AST: one constructor per node class of lldb-eval/ast.h as built
by src/lldb-eval/parser.cc, plus the error sentinel. -/
inductive Node where
  | error
  | literal (v : LitVal)
  | identifier (name : String) (isRvalue : Bool)
  | unaryOp (op : TokenKind) (rhs : Node)
  | binaryOp (op : TokenKind) (lhs rhs : Node)
  | ternaryOp (cond lhs rhs : Node)
  | memberOf (kind : MemberOfKind) (base : Node) (member : String)
  | cStyleCast (ty : CType) (rhs : Node)
  deriving DecidableEq, Repr

/-- Parser::IsCvQualifier. -/
def IsCvQualifier (t : Token) : Bool :=
  t.kind = TokenKind.kw_const || t.kind = TokenKind.kw_volatile

/-- Parser::IsSimpleTypeSpecifierKeyword. -/
def IsSimpleTypeSpecifierKeyword (t : Token) : Bool :=
  t.kind ∈ [TokenKind.kw_char, TokenKind.kw_char16_t, TokenKind.kw_char32_t,
    TokenKind.kw_wchar_t, TokenKind.kw_bool, TokenKind.kw_short,
    TokenKind.kw_int, TokenKind.kw_long, TokenKind.kw_signed,
    TokenKind.kw_unsigned, TokenKind.kw_float, TokenKind.kw_double,
    TokenKind.kw_void]

/-- Parser::IsPtrOperator. -/
def IsPtrOperator (t : Token) : Bool :=
  t.kind = TokenKind.star || t.kind = TokenKind.amp

/-- The cv_qualifier_seq loop inside Parser::ParsePtrOperator: consume
cv qualifiers while the current token is one. -/
def skipCvQualifiers (input : List Token) : Nat → State → State
  | 0, s => s
  | n + 1, s =>
      if IsCvQualifier s.cur then skipCvQualifiers input n (ConsumeToken input s)
      else s

/-- Parser::ParsePtrOperator: expect star or ampersand, record it on the
type declaration, and for star also discard trailing cv qualifiers. -/
def ParsePtrOperator (input : List Token) (fuel : Nat) (d : TypeDeclaration)
    (s : State) : TypeDeclaration × State :=
  let s := ExpectOneOf [TokenKind.star, TokenKind.amp] s
  if s.cur.kind = TokenKind.star then
    ({ d with ptrOperators := d.ptrOperators ++ [TokenKind.star] },
      skipCvQualifiers input fuel (ConsumeToken input s))
  else if s.cur.kind = TokenKind.amp then
    ({ d with ptrOperators := d.ptrOperators ++ [TokenKind.amp] },
      ConsumeToken input s)
  else (d, s)

/-- Parser::ParseUnqualifiedId: expect an identifier, return its
spelling and consume it. -/
def ParseUnqualifiedId (input : List Token) (s : State) : String × State :=
  let s := Expect TokenKind.identifier s
  (s.cur.spelling, ConsumeToken input s)

/-- Parser::ResolveTypeFromTypeDecl: invalid declarations resolve to
nothing; otherwise resolve the canonical base name in the context. -/
def ResolveTypeFromTypeDecl (ctx : Ctx) (d : TypeDeclaration) : Option CType :=
  if d.IsValid then resolveTypeByName ctx d.GetBaseName
  else none

/-- Parser::ResolveTypeDeclarators: apply the pointer and reference
operators in order; a pointer to a reference or a reference to a
reference bails out with kInvalidOperandType and yields no type. -/
def ResolveTypeDeclarators (ty : CType) (ops : List TokenKind) (s : State) :
    Option CType × State :=
  match ops with
  | [] => (some ty, s)
  | tk :: rest =>
      if tk = TokenKind.star then
        if ty.isReferenceType then
          (none, BailOut ErrorCode.kInvalidOperandType s.cur.loc s)
        else ResolveTypeDeclarators (CType.pointer ty) rest s
      else if tk = TokenKind.amp then
        if ty.isReferenceType then
          (none, BailOut ErrorCode.kInvalidOperandType s.cur.loc s)
        else ResolveTypeDeclarators (CType.reference ty) rest s
      else ResolveTypeDeclarators ty rest s

/-- The literal classification attached to a token; a token without one
is treated as a failed literal parse. -/
def litOf (t : Token) : NumLit :=
  t.nlit.getD { hadError := true }

/-- Width of uintmax_t, the APInt width used by ParseIntegerLiteral. -/
def uintmaxWidth : Nat := 64

/-- Parser::ParseIntegerLiteral: reject values that do not fit
uintmax_t, pick the integer type, and build the literal value. -/
def ParseIntegerLiteral (ctx : Ctx) (lit : NumLit) (tok : Token) (s : State) :
    Node × State :=
  if !(isIntN uintmaxWidth lit.intValue) then
    (Node.error, BailOut ErrorCode.kInvalidNumericLiteral tok.loc s)
  else
    let ty := PickIntegerType ctx.widths lit lit.intValue
    (Node.literal (LitVal.intV ty lit.intValue (isUnsignedBasicType ty)), s)

/-- Parser::ParseFloatingLiteral: a conversion overflow (or underflow to
zero) is fatal; otherwise the literal is float with the f suffix and
double without. -/
def ParseFloatingLiteral (lit : NumLit) (tok : Token) (s : State) :
    Node × State :=
  if lit.floatConversionError then
    (Node.error, BailOut ErrorCode.kInvalidNumericLiteral tok.loc s)
  else (Node.literal (LitVal.floatV lit.isFloat), s)

/-- Parser::ParseNumericConstant: run the external literal classifier on
the token and dispatch to the floating or integer literal parser;
anything else is rejected. -/
def ParseNumericConstant (ctx : Ctx) (tok : Token) (s : State) : Node × State :=
  let lit := litOf tok
  if lit.hadError then
    (Node.error, BailOut ErrorCode.kInvalidNumericLiteral tok.loc s)
  else if lit.isFloatingLiteral then ParseFloatingLiteral lit tok s
  else if lit.isIntegerLiteral then ParseIntegerLiteral ctx lit tok s
  else (Node.error, BailOut ErrorCode.kInvalidNumericLiteral tok.loc s)

/-- Parser::ParseNumericLiteral. -/
def ParseNumericLiteral (env : Env) (s : State) : Node × State :=
  let s := Expect TokenKind.numeric_constant s
  let r := ParseNumericConstant env.ctx s.cur s
  (r.1, ConsumeToken env.input r.2)

/-- Parser::ParseBooleanLiteral. -/
def ParseBooleanLiteral (env : Env) (s : State) : Node × State :=
  let s := ExpectOneOf [TokenKind.kw_true, TokenKind.kw_false] s
  let b := s.cur.kind = TokenKind.kw_true
  (Node.literal (LitVal.boolV b), ConsumeToken env.input s)

/-- Parser::ParsePointerLiteral. -/
def ParsePointerLiteral (env : Env) (s : State) : Node × State :=
  let s := Expect TokenKind.kw_nullptr s
  (Node.literal LitVal.nullptrV, ConsumeToken env.input s)

/-- Result of a parse function that ran out of fuel.  The real parser
has no fuel bound; for every input a large enough fuel avoids this
branch entirely.  Bailing out keeps the error discipline intact. -/
def outOfFuel (s : State) : Node × State :=
  (Node.error, BailOut ErrorCode.kUnknown s.cur.loc s)

/-- The abstract_declarator loop of Parser::ParseTypeId: parse pointer
operators while the current token is one. -/
def TypeIdPtrLoop (input : List Token) :
    Nat → TypeDeclaration → State → TypeDeclaration × State
  | 0, d, s => (d, s)
  | n + 1, d, s =>
      if IsPtrOperator s.cur then
        let r := ParsePtrOperator input n d s
        TypeIdPtrLoop input n r.1 r.2
      else (d, s)

/-- The final fix-up of Parser::ParseTemplateArgumentList: add a space
before the closing angle bracket when the last argument itself ends in
one, then join the arguments with comma and space. -/
def finishTemplateArgumentList (args : List String) : String :=
  let args :=
    match args.getLast? with
    | some a =>
        if a.data.getLast? = some '>' then args.dropLast ++ [a ++ " "]
        else args
    | none => args
  String.intercalate ", " args

mutual

/-- Parser::ParseExpression. -/
def ParseExpression (env : Env) : Nat → State → Node × State
  | 0, s => outOfFuel s
  | n + 1, s => ParseAssignmentExpression env n s

/-- Parser::ParseAssignmentExpression. -/
def ParseAssignmentExpression (env : Env) : Nat → State → Node × State
  | 0, s => outOfFuel s
  | n + 1, s => ParseConditionalExpression env n s

/-- Parser::ParseConditionalExpression. -/
def ParseConditionalExpression (env : Env) : Nat → State → Node × State
  | 0, s => outOfFuel s
  | n + 1, s =>
      let r := ParseLogicalOrExpression env n s
      if r.2.cur.kind = TokenKind.question then
        let rt := ParseExpression env n (ConsumeToken env.input r.2)
        let s2 := ConsumeToken env.input (Expect TokenKind.colon rt.2)
        let rf := ParseAssignmentExpression env n s2
        (Node.ternaryOp r.1 rt.1 rf.1, rf.2)
      else r

/-- Parser::ParseLogicalOrExpression. -/
def ParseLogicalOrExpression (env : Env) : Nat → State → Node × State
  | 0, s => outOfFuel s
  | n + 1, s =>
      let r := ParseLogicalAndExpression env n s
      ParseLogicalOrLoop env n r.1 r.2

/-- The while loop of Parser::ParseLogicalOrExpression. -/
def ParseLogicalOrLoop (env : Env) : Nat → Node → State → Node × State
  | 0, lhs, s => (lhs, s)
  | n + 1, lhs, s =>
      if s.cur.kind = TokenKind.pipepipe then
        let k := s.cur.kind
        let r := ParseLogicalAndExpression env n (ConsumeToken env.input s)
        ParseLogicalOrLoop env n (Node.binaryOp k lhs r.1) r.2
      else (lhs, s)

/-- Parser::ParseLogicalAndExpression. -/
def ParseLogicalAndExpression (env : Env) : Nat → State → Node × State
  | 0, s => outOfFuel s
  | n + 1, s =>
      let r := ParseInclusiveOrExpression env n s
      ParseLogicalAndLoop env n r.1 r.2

/-- The while loop of Parser::ParseLogicalAndExpression. -/
def ParseLogicalAndLoop (env : Env) : Nat → Node → State → Node × State
  | 0, lhs, s => (lhs, s)
  | n + 1, lhs, s =>
      if s.cur.kind = TokenKind.ampamp then
        let k := s.cur.kind
        let r := ParseInclusiveOrExpression env n (ConsumeToken env.input s)
        ParseLogicalAndLoop env n (Node.binaryOp k lhs r.1) r.2
      else (lhs, s)

/-- Parser::ParseInclusiveOrExpression. -/
def ParseInclusiveOrExpression (env : Env) : Nat → State → Node × State
  | 0, s => outOfFuel s
  | n + 1, s =>
      let r := ParseExclusiveOrExpression env n s
      ParseInclusiveOrLoop env n r.1 r.2

/-- The while loop of Parser::ParseInclusiveOrExpression. -/
def ParseInclusiveOrLoop (env : Env) : Nat → Node → State → Node × State
  | 0, lhs, s => (lhs, s)
  | n + 1, lhs, s =>
      if s.cur.kind = TokenKind.pipe then
        let k := s.cur.kind
        let r := ParseExclusiveOrExpression env n (ConsumeToken env.input s)
        ParseInclusiveOrLoop env n (Node.binaryOp k lhs r.1) r.2
      else (lhs, s)

/-- Parser::ParseExclusiveOrExpression. -/
def ParseExclusiveOrExpression (env : Env) : Nat → State → Node × State
  | 0, s => outOfFuel s
  | n + 1, s =>
      let r := ParseAndExpression env n s
      ParseExclusiveOrLoop env n r.1 r.2

/-- The while loop of Parser::ParseExclusiveOrExpression. -/
def ParseExclusiveOrLoop (env : Env) : Nat → Node → State → Node × State
  | 0, lhs, s => (lhs, s)
  | n + 1, lhs, s =>
      if s.cur.kind = TokenKind.caret then
        let k := s.cur.kind
        let r := ParseAndExpression env n (ConsumeToken env.input s)
        ParseExclusiveOrLoop env n (Node.binaryOp k lhs r.1) r.2
      else (lhs, s)

/-- Parser::ParseAndExpression. -/
def ParseAndExpression (env : Env) : Nat → State → Node × State
  | 0, s => outOfFuel s
  | n + 1, s =>
      let r := ParseEqualityExpression env n s
      ParseAndLoop env n r.1 r.2

/-- The while loop of Parser::ParseAndExpression. -/
def ParseAndLoop (env : Env) : Nat → Node → State → Node × State
  | 0, lhs, s => (lhs, s)
  | n + 1, lhs, s =>
      if s.cur.kind = TokenKind.amp then
        let k := s.cur.kind
        let r := ParseEqualityExpression env n (ConsumeToken env.input s)
        ParseAndLoop env n (Node.binaryOp k lhs r.1) r.2
      else (lhs, s)

/-- Parser::ParseEqualityExpression. -/
def ParseEqualityExpression (env : Env) : Nat → State → Node × State
  | 0, s => outOfFuel s
  | n + 1, s =>
      let r := ParseRelationalExpression env n s
      ParseEqualityLoop env n r.1 r.2

/-- The while loop of Parser::ParseEqualityExpression. -/
def ParseEqualityLoop (env : Env) : Nat → Node → State → Node × State
  | 0, lhs, s => (lhs, s)
  | n + 1, lhs, s =>
      if s.cur.kind = TokenKind.equalequal ∨ s.cur.kind = TokenKind.exclaimequal
      then
        let k := s.cur.kind
        let r := ParseRelationalExpression env n (ConsumeToken env.input s)
        ParseEqualityLoop env n (Node.binaryOp k lhs r.1) r.2
      else (lhs, s)

/-- Parser::ParseRelationalExpression. -/
def ParseRelationalExpression (env : Env) : Nat → State → Node × State
  | 0, s => outOfFuel s
  | n + 1, s =>
      let r := ParseShiftExpression env n s
      ParseRelationalLoop env n r.1 r.2

/-- The while loop of Parser::ParseRelationalExpression. -/
def ParseRelationalLoop (env : Env) : Nat → Node → State → Node × State
  | 0, lhs, s => (lhs, s)
  | n + 1, lhs, s =>
      if s.cur.kind = TokenKind.less ∨ s.cur.kind = TokenKind.greater ∨
          s.cur.kind = TokenKind.lessequal ∨ s.cur.kind = TokenKind.greaterequal
      then
        let k := s.cur.kind
        let r := ParseShiftExpression env n (ConsumeToken env.input s)
        ParseRelationalLoop env n (Node.binaryOp k lhs r.1) r.2
      else (lhs, s)

/-- Parser::ParseShiftExpression. -/
def ParseShiftExpression (env : Env) : Nat → State → Node × State
  | 0, s => outOfFuel s
  | n + 1, s =>
      let r := ParseAdditiveExpression env n s
      ParseShiftLoop env n r.1 r.2

/-- The while loop of Parser::ParseShiftExpression. -/
def ParseShiftLoop (env : Env) : Nat → Node → State → Node × State
  | 0, lhs, s => (lhs, s)
  | n + 1, lhs, s =>
      if s.cur.kind = TokenKind.lessless ∨
          s.cur.kind = TokenKind.greatergreater then
        let k := s.cur.kind
        let r := ParseAdditiveExpression env n (ConsumeToken env.input s)
        ParseShiftLoop env n (Node.binaryOp k lhs r.1) r.2
      else (lhs, s)

/-- Parser::ParseAdditiveExpression. -/
def ParseAdditiveExpression (env : Env) : Nat → State → Node × State
  | 0, s => outOfFuel s
  | n + 1, s =>
      let r := ParseMultiplicativeExpression env n s
      ParseAdditiveLoop env n r.1 r.2

/-- The while loop of Parser::ParseAdditiveExpression. -/
def ParseAdditiveLoop (env : Env) : Nat → Node → State → Node × State
  | 0, lhs, s => (lhs, s)
  | n + 1, lhs, s =>
      if s.cur.kind = TokenKind.plus ∨ s.cur.kind = TokenKind.minus then
        let k := s.cur.kind
        let r := ParseMultiplicativeExpression env n (ConsumeToken env.input s)
        ParseAdditiveLoop env n (Node.binaryOp k lhs r.1) r.2
      else (lhs, s)

/-- Parser::ParseMultiplicativeExpression. -/
def ParseMultiplicativeExpression (env : Env) : Nat → State → Node × State
  | 0, s => outOfFuel s
  | n + 1, s =>
      let r := ParseCastExpression env n s
      ParseMultiplicativeLoop env n r.1 r.2

/-- The while loop of Parser::ParseMultiplicativeExpression. -/
def ParseMultiplicativeLoop (env : Env) : Nat → Node → State → Node × State
  | 0, lhs, s => (lhs, s)
  | n + 1, lhs, s =>
      if s.cur.kind = TokenKind.star ∨ s.cur.kind = TokenKind.slash ∨
          s.cur.kind = TokenKind.percent then
        let k := s.cur.kind
        let r := ParseCastExpression env n (ConsumeToken env.input s)
        ParseMultiplicativeLoop env n (Node.binaryOp k lhs r.1) r.2
      else (lhs, s)

/-- Parser::ParseCastExpression.  On a left parenthesis a tentative
snapshot is taken (modelled from the spec: TentativeParsingAction, whose
class lives in lldb-eval/parser.h outside src/, captures the token
position, the current token and the error slot; commit keeps the state,
rollback restores the captured one).  The snapshot here is the whole
entry state, so rollback simply resumes from it. -/
def ParseCastExpression (env : Env) : Nat → State → Node × State
  | 0, s => outOfFuel s
  | n + 1, s =>
      if s.cur.kind = TokenKind.l_paren then
        let saved := s
        let rt := ParseTypeId env n (ConsumeToken env.input s)
        match ResolveTypeFromTypeDecl env.ctx rt.1 with
        | some ty =>
            let rd := ResolveTypeDeclarators ty rt.1.ptrOperators rt.2
            match rd.1 with
            | none => (Node.error, rd.2)
            | some ty2 =>
                let s2 := ConsumeToken env.input (Expect TokenKind.r_paren rd.2)
                let rr := ParseCastExpression env n s2
                (Node.cStyleCast ty2 rr.1, rr.2)
        | none => ParseUnaryExpression env n saved
      else ParseUnaryExpression env n s

/-- Parser::ParseUnaryExpression. -/
def ParseUnaryExpression (env : Env) : Nat → State → Node × State
  | 0, s => outOfFuel s
  | n + 1, s =>
      if s.cur.kind = TokenKind.plusplus ∨ s.cur.kind = TokenKind.minusminus ∨
          s.cur.kind = TokenKind.star ∨ s.cur.kind = TokenKind.amp ∨
          s.cur.kind = TokenKind.plus ∨ s.cur.kind = TokenKind.minus ∨
          s.cur.kind = TokenKind.exclaim ∨ s.cur.kind = TokenKind.tilde then
        let k := s.cur.kind
        let r := ParseCastExpression env n (ConsumeToken env.input s)
        (Node.unaryOp k r.1, r.2)
      else ParsePostfixExpression env n s

/-- Parser::ParsePostfixExpression. -/
def ParsePostfixExpression (env : Env) : Nat → State → Node × State
  | 0, s => outOfFuel s
  | n + 1, s =>
      let r := ParsePrimaryExpression env n s
      ParsePostfixLoop env n r.1 r.2

/-- The while loop of Parser::ParsePostfixExpression: subscripts, member
accesses, and the rejected postfix increment and decrement. -/
def ParsePostfixLoop (env : Env) : Nat → Node → State → Node × State
  | 0, lhs, s => (lhs, s)
  | n + 1, lhs, s =>
      if s.cur.kind = TokenKind.period ∨ s.cur.kind = TokenKind.arrow then
        let mk := if s.cur.kind = TokenKind.period then MemberOfKind.ofObject
          else MemberOfKind.ofPointer
        let rm := ParseIdExpression env n (ConsumeToken env.input s)
        ParsePostfixLoop env n (Node.memberOf mk lhs rm.1) rm.2
      else if s.cur.kind = TokenKind.plusplus ∨ s.cur.kind = TokenKind.minusminus
      then
        (Node.error, BailOut ErrorCode.kNotImplemented s.cur.loc s)
      else if s.cur.kind = TokenKind.l_square then
        let re := ParseExpression env n (ConsumeToken env.input s)
        let s2 := ConsumeToken env.input (Expect TokenKind.r_square re.2)
        ParsePostfixLoop env n (Node.binaryOp TokenKind.l_square lhs re.1) s2
      else (lhs, s)

/-- Parser::ParsePrimaryExpression. -/
def ParsePrimaryExpression (env : Env) : Nat → State → Node × State
  | 0, s => outOfFuel s
  | n + 1, s =>
      if s.cur.kind = TokenKind.numeric_constant then ParseNumericLiteral env s
      else if s.cur.kind = TokenKind.kw_true ∨ s.cur.kind = TokenKind.kw_false
      then ParseBooleanLiteral env s
      else if s.cur.kind = TokenKind.kw_nullptr then ParsePointerLiteral env s
      else if s.cur.kind = TokenKind.coloncolon ∨
          s.cur.kind = TokenKind.identifier then
        let loc := s.cur.loc
        let ri := ParseIdExpression env n s
        if lookupIdentifier env.ctx ri.1 then (Node.identifier ri.1 false, ri.2)
        else (Node.error, BailOut ErrorCode.kUndeclaredIdentifier loc ri.2)
      else if s.cur.kind = TokenKind.kw_this then
        let loc := s.cur.loc
        let s1 := ConsumeToken env.input s
        if lookupIdentifier env.ctx "this" then (Node.identifier "this" true, s1)
        else (Node.error, BailOut ErrorCode.kUndeclaredIdentifier loc s1)
      else if s.cur.kind = TokenKind.l_paren then
        let re := ParseExpression env n (ConsumeToken env.input s)
        (re.1, ConsumeToken env.input (Expect TokenKind.r_paren re.2))
      else
        (Node.error, BailOut ErrorCode.kInvalidExpressionSyntax s.cur.loc s)

/-- Parser::ParseTypeId: a type_specifier_seq followed by pointer
operators. -/
def ParseTypeId (env : Env) : Nat → State → TypeDeclaration × State
  | 0, s => ({}, s)
  | n + 1, s =>
      let r := ParseTypeSpecifierSeq env n {} s
      TypeIdPtrLoop env.input n r.1 r.2

/-- Parser::ParseTypeSpecifierSeq: parse type specifiers until one
fails. -/
def ParseTypeSpecifierSeq (env : Env) :
    Nat → TypeDeclaration → State → TypeDeclaration × State
  | 0, d, s => (d, s)
  | n + 1, d, s =>
      let r := ParseTypeSpecifier env n d s
      if r.1 then ParseTypeSpecifierSeq env n r.2.1 r.2.2
      else (r.2.1, r.2.2)

/-- Parser::ParseTypeSpecifier: a cv qualifier (discarded), a
fundamental type keyword, or the user-defined simple_type_specifier form
with optional global scope, optional nested_name_specifier and required
type_name. -/
def ParseTypeSpecifier (env : Env) :
    Nat → TypeDeclaration → State → Bool × TypeDeclaration × State
  | 0, d, s => (false, d, s)
  | n + 1, d, s =>
      if IsCvQualifier s.cur then (true, d, ConsumeToken env.input s)
      else if IsSimpleTypeSpecifierKeyword s.cur then
        (true, { d with typenames := d.typenames ++ [s.cur.spelling] },
          ConsumeToken env.input s)
      else
        let gp :=
          if s.cur.kind = TokenKind.coloncolon then
            (true, ConsumeToken env.input s)
          else (false, s)
        let rn := ParseNestedNameSpecifier env n gp.2
        let rt := ParseTypeName env n rn.2
        if rt.1 ≠ "" then
          (true,
            { d with typenames :=
                d.typenames ++ [(if gp.1 then "::" else "") ++ rn.1 ++ rt.1] },
            rt.2)
        else (false, d, rt.2)

/-- Parser::ParseNestedNameSpecifier: an identifier directly followed by
the scope operator, or a simple_template_id followed by the scope
operator (attempted under a tentative snapshot, modelled from the spec
as for ParseCastExpression), repeated. -/
def ParseNestedNameSpecifier (env : Env) : Nat → State → String × State
  | 0, s => ("", s)
  | n + 1, s =>
      if s.cur.kind ≠ TokenKind.identifier then ("", s)
      else if (lookAhead env.input s).kind = TokenKind.coloncolon then
        let ident := s.cur.spelling
        let s1 := ConsumeToken env.input
          (Expect TokenKind.coloncolon (ConsumeToken env.input s))
        let rr := ParseNestedNameSpecifier env n s1
        (ident ++ "::" ++ rr.1, rr.2)
      else if (lookAhead env.input s).kind = TokenKind.less then
        let saved := s
        let rt := ParseTypeName env n s
        if rt.1 ≠ "" ∧ rt.2.cur.kind = TokenKind.coloncolon then
          let rr := ParseNestedNameSpecifier env n (ConsumeToken env.input rt.2)
          (rt.1 ++ "::" ++ rr.1, rr.2)
        else ("", saved)
      else ("", s)

/-- Parser::ParseTypeName: a plain identifier, or a simple_template_id
with an optional template_argument_list. -/
def ParseTypeName (env : Env) : Nat → State → String × State
  | 0, s => ("", s)
  | n + 1, s =>
      if s.cur.kind ≠ TokenKind.identifier then ("", s)
      else if (lookAhead env.input s).kind = TokenKind.less then
        let templateName := s.cur.spelling
        let s1 := ConsumeToken env.input (ConsumeToken env.input s)
        if s1.cur.kind = TokenKind.greater then
          (templateName ++ "<>", ConsumeToken env.input s1)
        else
          let ra := ParseTemplateArgumentList env n s1
          if ra.2.cur.kind = TokenKind.greater then
            (templateName ++ "<" ++ ra.1 ++ ">", ConsumeToken env.input ra.2)
          else ("", ra.2)
      else (s.cur.spelling, ConsumeToken env.input s)

/-- Parser::ParseTemplateArgumentList. -/
def ParseTemplateArgumentList (env : Env) : Nat → State → String × State
  | 0, s => ("", s)
  | n + 1, s => ParseTemplateArgumentListLoop env n [] s

/-- The do-while loop of Parser::ParseTemplateArgumentList: parse
arguments separated by commas; an empty argument aborts the list. -/
def ParseTemplateArgumentListLoop (env : Env) :
    Nat → List String → State → String × State
  | 0, _, s => ("", s)
  | n + 1, args, s =>
      let s0 := if args.isEmpty then s else ConsumeToken env.input s
      let ra := ParseTemplateArgument env n s0
      if ra.1 = "" then ("", ra.2)
      else
        let args2 := args ++ [ra.1]
        if ra.2.cur.kind = TokenKind.comma then
          ParseTemplateArgumentListLoop env n args2 ra.2
        else (finishTemplateArgumentList args2, ra.2)

/-- Parser::ParseTemplateArgument: first a type_id under a tentative
snapshot (requiring the resolver to confirm the base type and the next
token to close the argument), then an id_expression under the same
follow-set constraint; otherwise empty.  Both snapshots are modelled
from the spec as for ParseCastExpression. -/
def ParseTemplateArgument (env : Env) : Nat → State → String × State
  | 0, s => ("", s)
  | n + 1, s =>
      let saved := s
      let rt := ParseTypeId env n s
      if rt.1.IsValid ∧ (ResolveTypeFromTypeDecl env.ctx rt.1).isSome ∧
          (rt.2.cur.kind = TokenKind.comma ∨ rt.2.cur.kind = TokenKind.greater)
      then (rt.1.GetName, rt.2)
      else
        let ri := ParseIdExpression env n saved
        if ri.1 ≠ "" ∧
            (ri.2.cur.kind = TokenKind.comma ∨
              ri.2.cur.kind = TokenKind.greater) then
          (ri.1, ri.2)
        else ("", saved)

/-- Parser::ParseIdExpression: optional global scope, optional
nested_name_specifier, then an unqualified_id; with a global scope and
no nested specifier, a single identifier. -/
def ParseIdExpression (env : Env) : Nat → State → String × State
  | 0, s => ("", s)
  | n + 1, s =>
      let gp :=
        if s.cur.kind = TokenKind.coloncolon then
          (true, ConsumeToken env.input s)
        else (false, s)
      let rn := ParseNestedNameSpecifier env n gp.2
      if rn.1 ≠ "" then
        let ru := ParseUnqualifiedId env.input rn.2
        ((if gp.1 then "::" else "") ++ rn.1 ++ ru.1, ru.2)
      else if gp.1 then
        let s2 := Expect TokenKind.identifier rn.2
        ("::" ++ s2.cur.spelling, ConsumeToken env.input s2)
      else ParseUnqualifiedId env.input rn.2

end

/-- The state of the parser right after construction: nothing lexed,
the current token kind is unknown, no error. -/
def initialState : State :=
  { pos := 0, cur := { kind := TokenKind.unknown }, err := none }

/-- Parser::Run: lex the first token, parse an expression, expect
end-of-input, and return the error sentinel when an error was
recorded. -/
def Run (env : Env) (fuel : Nat) : Node × Option ParseError :=
  let s0 := ConsumeToken env.input initialState
  let re := ParseExpression env fuel s0
  let s2 := Expect TokenKind.eof re.2
  match s2.err with
  | some e => (Node.error, some e)
  | none => (re.1, none)

/-- Identifier token helper for concrete inputs. -/
def tIdent (sp : String) (l : Nat) : Token :=
  { kind := TokenKind.identifier, spelling := sp, loc := l }

/-- Integer literal token helper for concrete inputs. -/
def tNum (v radix l : Nat) : Token :=
  { kind := TokenKind.numeric_constant, loc := l,
    nlit := some { isIntegerLiteral := true, radix := radix, intValue := v } }

/-- Bare punctuation or keyword token helper for concrete inputs. -/
def tK (k : TokenKind) (l : Nat) : Token := { kind := k, loc := l }

/-- Concrete input for the truncated expression 1 shifted-left nothing:
the tokens of the text with a missing right operand. -/
def envTruncatedShift : Env :=
  { input := [tNum 1 10 0, tK TokenKind.lessless 2], ctx := {} }

/-- Concrete input for the parenthesized name foo where foo is a known
type and nothing follows the closing parenthesis. -/
def envParenKnownType : Env :=
  { input := [tK TokenKind.l_paren 0, tIdent "foo" 1, tK TokenKind.r_paren 4],
    ctx := { types := [("foo", CType.named "foo")] } }

/-- Concrete input for the parenthesized name foo where foo is not a
known type but is a known value. -/
def envParenKnownValue : Env :=
  { input := [tK TokenKind.l_paren 0, tIdent "foo" 1, tK TokenKind.r_paren 4],
    ctx := { values := ["foo"] } }

/-- The parser state at the start of a parse of envParenKnownValue,
right after the first token was lexed. -/
def stateParenKnownValue : State :=
  ConsumeToken envParenKnownValue.input initialState

/-- Concrete input whose first two tokens are the global scope operator
followed by a plus sign. -/
def envScopePlus : Env :=
  { input := [tK TokenKind.coloncolon 0, tK TokenKind.plus 2], ctx := {} }

/-- State in envScopePlus where the current token is the scope operator
and the plus sign is next. -/
def stateScopePlus : State :=
  { pos := 1, cur := tK TokenKind.coloncolon 0, err := none }

/-- The unsuffixed hexadecimal literal 0xFFFFFFFF on a target with
32-bit int. -/
def envHexFFFFFFFF : Env :=
  { input := [tNum 4294967295 16 0], ctx := {} }

/-- The unsuffixed decimal literal 4294967295 on a target with 32-bit
int and 64-bit long. -/
def envDecimalLong64 : Env :=
  { input := [tNum 4294967295 10 0], ctx := {} }

/-- The unsuffixed decimal literal 4294967295 on a target with 32-bit
int and 32-bit long. -/
def envDecimalLong32 : Env :=
  { input := [tNum 4294967295 10 0],
    ctx := { widths := { int := 32, long := 32, longlong := 64 } } }

/-- Rendering of pointer operators as the specification describes the
output of TypeDeclaration::GetName: one star per star operator and one
ampersand per ampersand operator, concatenated in order. -/
def renderedPtrOps : List TokenKind → String
  | [] => ""
  | t :: ts =>
      (if t = TokenKind.star then "*" else "&") ++ renderedPtrOps ts

/-! Helper lemmas about the primitive state operations. -/

/-- Bailing out always leaves an error recorded. -/
theorem BailOut_err_isSome (c : ErrorCode) (l : Nat) (s : State) :
    (BailOut c l s).err.isSome = true := by
  unfold BailOut
  cases h : s.err <;> simp [h]

/-- Consuming a token never changes the error slot. -/
theorem ConsumeToken_err (input : List Token) (s : State) :
    (ConsumeToken input s).err = s.err := by
  unfold ConsumeToken
  split <;> rfl

/-- Expect never clears a recorded error. -/
theorem Expect_err_isSome (k : TokenKind) (s : State)
    (h : s.err.isSome = true) : (Expect k s).err.isSome = true := by
  unfold Expect
  split
  · exact h
  · exact BailOut_err_isSome _ _ _

/-- Fitting in n - 1 bits is harder than fitting in n bits. -/
theorem isIntN_pred_false (n v : Nat) (h : isIntN n v = false) :
    isIntN (n - 1) v = false := by
  simp only [isIntN, decide_eq_false_iff_not, not_lt] at h ⊢
  exact le_trans (Nat.pow_le_pow_right (by norm_num) (Nat.sub_le n 1)) h

/-- Unfolding lemma for the pointer-operator rendering loop inside
TypeDeclaration::GetName. -/
theorem getName_foldl (ops : List TokenKind) (acc : String)
    (h : ∀ t ∈ ops, t = TokenKind.star ∨ t = TokenKind.amp) :
    ops.foldl (fun a tok =>
        if tok = TokenKind.star then a ++ "*"
        else if tok = TokenKind.amp then a ++ "&" else a) acc
      = acc ++ renderedPtrOps ops := by
  induction ops generalizing acc with
  | nil => simp [renderedPtrOps]
  | cons t ts ih =>
      have ht := h t (by simp)
      have hts : ∀ x ∈ ts, x = TokenKind.star ∨ x = TokenKind.amp :=
        fun x hx => h x (by simp [hx])
      rcases ht with h1 | h1 <;> subst h1 <;>
        simp [renderedPtrOps, ih _ hts, String.append_assoc]

/-! Claims about the type-declaration renderer. -/

/-- C3 counterexample: the claim says the rendered base name never
contains the token sequence short int, however many occurrences the
typename sequence holds.  With the typename sequence short, int, short,
int the source only replaces the first occurrence, yielding the string
short short int, which still contains short int. -/
theorem C3_counterexample :
    TypeDeclaration.GetBaseName { typenames := ["short", "int", "short", "int"] }
        = "short short int" ∧
      containsSubstring
        (TypeDeclaration.GetBaseName
          { typenames := ["short", "int", "short", "int"] })
        "short int" = true := by
  constructor <;> decide

/-- C3 amended: only the first occurrence of short int and the first
occurrence of long int are replaced on rendering, so for every standard
fundamental integer type spelling (one trailing int after its short or
long keywords) the rendered base name is the canonical one, with no
short int and no long int left. -/
theorem C3_canonicalize_fundamental_spellings :
    TypeDeclaration.GetBaseName { typenames := ["short", "int"] } = "short" ∧
    TypeDeclaration.GetBaseName { typenames := ["long", "int"] } = "long" ∧
    TypeDeclaration.GetBaseName { typenames := ["long", "long", "int"] }
      = "long long" ∧
    TypeDeclaration.GetBaseName { typenames := ["unsigned", "short", "int"] }
      = "unsigned short" ∧
    TypeDeclaration.GetBaseName { typenames := ["unsigned", "long", "int"] }
      = "unsigned long" ∧
    TypeDeclaration.GetBaseName
        { typenames := ["unsigned", "long", "long", "int"] }
      = "unsigned long long" ∧
    TypeDeclaration.GetBaseName { typenames := ["signed", "short", "int"] }
      = "signed short" ∧
    TypeDeclaration.GetBaseName { typenames := ["signed", "long", "int"] }
      = "signed long" ∧
    TypeDeclaration.GetBaseName { typenames := ["signed", "long", "long", "int"] }
      = "signed long long" := by
  refine ⟨?_, ?_, ?_, ?_, ?_, ?_, ?_, ?_, ?_⟩ <;> decide

/-- C9: GetName returns exactly the base name when there are no pointer
operators, and otherwise the base name, one space, and the operators
rendered in order as stars and ampersands with no further separator. -/
theorem C9_GetName_rendering (d : TypeDeclaration)
    (h : ∀ t ∈ d.ptrOperators, t = TokenKind.star ∨ t = TokenKind.amp) :
    d.GetName = d.GetBaseName ++
      (if d.ptrOperators = [] then ""
       else " " ++ renderedPtrOps d.ptrOperators) := by
  unfold TypeDeclaration.GetName
  rcases hops : d.ptrOperators with _ | ⟨t, ts⟩
  · simp [hops]
  · rw [hops] at h
    simp only [hops, List.length_cons, gt_iff_lt, Nat.succ_pos, if_pos,
      getName_foldl _ _ h]
    simp [String.append_assoc]

/-- C9 witness: a concrete declaration with pointer, reference and
pointer operators renders as the base name, a space, then star
ampersand star. -/
theorem C9_GetName_rendering_witness :
    TypeDeclaration.GetName
        { typenames := ["int"],
          ptrOperators := [TokenKind.star, TokenKind.amp, TokenKind.star] }
      = "int *&*" := by
  rw [C9_GetName_rendering
    { typenames := ["int"],
      ptrOperators := [TokenKind.star, TokenKind.amp, TokenKind.star] }
    (by decide)]
  decide

/-! Claims about the numeric literal typer. -/

/-- C6: a literal with the u suffix never receives a signed type, even
through the final fallback; and for an unsuffixed literal in a radix
other than ten, an unsigned type of a given width is only chosen when
the value does not fit the signed type of that width, the signed form
being tried first at every step of the cascade. -/
theorem C6_unsigned_discipline (w : Widths) (lit : NumLit) (v : Nat) :
    (lit.isUnsigned = true →
      isUnsignedBasicType (PickIntegerType w lit v) = true) ∧
    (lit.radix ≠ 10 → lit.isUnsigned = false →
      (PickIntegerType w lit v = BasicType.eBasicTypeUnsignedInt →
        isIntN (w.int - 1) v = false) ∧
      (PickIntegerType w lit v = BasicType.eBasicTypeUnsignedLong →
        isIntN (w.long - 1) v = false) ∧
      (PickIntegerType w lit v = BasicType.eBasicTypeUnsignedLongLong →
        isIntN (w.longlong - 1) v = false)) := by
  simp only [PickIntegerType]
  constructor
  · intro hu
    split_ifs with h1 h2 h3 h4 h5 h6 <;> simp_all [isUnsignedBasicType]
  · intro hr hu
    have hua : (lit.isUnsigned || decide (lit.radix ≠ 10)) = true := by
      simp [hr]
    split_ifs with h1 h2 h3 h4 h5 h6
    · exact ⟨fun he => by simp at he, fun he => by simp at he,
        fun he => by simp at he⟩
    · refine ⟨fun _ => ?_, fun he => by simp at he, fun he => by simp at he⟩
      have hA : (!lit.isLong && !lit.isLongLong && isIntN w.int v) = true := by
        simp only [Bool.and_eq_true] at h2
        simp [h2.1]
      cases hx : isIntN (w.int - 1) v
      · rfl
      · exact absurd (by simp [hA, hu, hx]) h1
    · exact ⟨fun he => by simp at he, fun he => by simp at he,
        fun he => by simp at he⟩
    · refine ⟨fun he => by simp at he, fun _ => ?_, fun he => by simp at he⟩
      have hA : (!lit.isLongLong && isIntN w.long v) = true := by
        simp only [Bool.and_eq_true] at h4
        simp [h4.1]
      cases hx : isIntN (w.long - 1) v
      · rfl
      · exact absurd (by simp [hA, hu, hx]) h3
    · exact ⟨fun he => by simp at he, fun he => by simp at he,
        fun he => by simp at he⟩
    · refine ⟨fun he => by simp at he, fun he => by simp at he, fun _ => ?_⟩
      have hA : isIntN w.longlong v = true := by
        simp only [Bool.and_eq_true] at h6
        exact h6.1
      cases hx : isIntN (w.longlong - 1) v
      · rfl
      · exact absurd (by simp [hA, hu, hx]) h5
    · refine ⟨fun he => by simp at he, fun he => by simp at he, fun _ => ?_⟩
      cases hll : isIntN w.longlong v
      · exact isIntN_pred_false _ _ hll
      · exact absurd (by simp only [hll, Bool.true_and]; exact hua) h6

/-- C6 witness: the hexadecimal unsuffixed literal value 4294967295 on
a 32-bit-int target exercises both parts: it is typed unsigned int, and
indeed does not fit a signed 32-bit int. -/
theorem C6_unsigned_discipline_witness :
    isUnsignedBasicType
        (PickIntegerType { int := 32, long := 64, longlong := 64 }
          { isIntegerLiteral := true, isUnsigned := true, radix := 16,
            intValue := 4294967295 } 4294967295) = true ∧
      isIntN 31 4294967295 = false :=
  ⟨(C6_unsigned_discipline { int := 32, long := 64, longlong := 64 }
      { isIntegerLiteral := true, isUnsigned := true, radix := 16,
        intValue := 4294967295 } 4294967295).1 rfl,
    ((C6_unsigned_discipline { int := 32, long := 64, longlong := 64 }
      { isIntegerLiteral := true, radix := 16, intValue := 4294967295 }
      4294967295).2 (by decide) rfl).1 (by decide)⟩

/-- C7 counterexample: the claim says the unsuffixed decimal literal
4294967295 is typed unsigned long when long is not 64 bits wide; on a
target with 32-bit long the code types it long long instead, because an
unsuffixed decimal literal is never allowed to become unsigned before
the final fallback. -/
theorem C7_counterexample :
    (Run envDecimalLong32 100).1 =
        Node.literal (LitVal.intV BasicType.eBasicTypeLongLong 4294967295 false) ∧
      BasicType.eBasicTypeLongLong ≠ BasicType.eBasicTypeUnsignedLong := by
  constructor <;> decide

/-- C7 amended: on a target where int is 32 bits, the unsuffixed
literal 0xFFFFFFFF is typed unsigned int with value 4294967295; the
unsuffixed decimal literal 4294967295 is typed long when long is 64
bits, and long long (not unsigned long) when long is 32 bits: the typer
takes the first type of the cascade int, unsigned int, long, unsigned
long, long long, unsigned long long that accommodates the value, with
unsigned candidates skipped for an unsuffixed decimal literal. -/
theorem C7_literal_typing :
    Run envHexFFFFFFFF 100 =
        (Node.literal
          (LitVal.intV BasicType.eBasicTypeUnsignedInt 4294967295 true), none) ∧
      Run envDecimalLong64 100 =
        (Node.literal
          (LitVal.intV BasicType.eBasicTypeLong 4294967295 false), none) ∧
      Run envDecimalLong32 100 =
        (Node.literal
          (LitVal.intV BasicType.eBasicTypeLongLong 4294967295 false), none) := by
  refine ⟨?_, ?_, ?_⟩ <;> decide

/-! Claims about the error discipline. -/

/-- C8: first error wins.  A BailOut with an error already recorded
changes nothing; a successful BailOut records the error and forces the
current token to end-of-input; ConsumeToken is the identity at
end-of-input, so after a successful BailOut any number of ConsumeToken
steps leaves the state, and in particular the current token, unchanged
at end-of-input. -/
theorem C8_first_error_wins (input : List Token) (s : State) (c : ErrorCode)
    (l : Nat) :
    (s.err.isSome = true → BailOut c l s = s) ∧
    (s.err = none →
      (BailOut c l s).err = some { code := c, loc := l } ∧
        (BailOut c l s).cur.kind = TokenKind.eof) ∧
    (∀ s2 : State, s2.cur.kind = TokenKind.eof → ConsumeToken input s2 = s2) ∧
    (s.err = none →
      ∀ n : Nat, (ConsumeToken input)^[n] (BailOut c l s) = BailOut c l s) := by
  have hconsume : ∀ s2 : State, s2.cur.kind = TokenKind.eof →
      ConsumeToken input s2 = s2 := by
    intro s2 h2
    unfold ConsumeToken
    simp [h2]
  refine ⟨?_, ?_, hconsume, ?_⟩
  · intro h
    unfold BailOut
    cases he : s.err
    · rw [he] at h; simp at h
    · rfl
  · intro h
    unfold BailOut
    rw [h]
    exact ⟨rfl, rfl⟩
  · intro h n
    induction n with
    | zero => rfl
    | succ m ihm =>
        rw [Function.iterate_succ_apply', ihm]
        apply hconsume
        unfold BailOut
        rw [h]

/-- C8 witness: a concrete state with no recorded error, bailed out
with kNotImplemented: the error is recorded, the token becomes
end-of-input, and three ConsumeToken steps change nothing. -/
theorem C8_first_error_wins_witness :
    (BailOut ErrorCode.kNotImplemented 5
          { pos := 1, cur := tK TokenKind.plus 5, err := none }).err
        = some { code := ErrorCode.kNotImplemented, loc := 5 } ∧
      (ConsumeToken [tK TokenKind.plus 5])^[3]
          (BailOut ErrorCode.kNotImplemented 5
            { pos := 1, cur := tK TokenKind.plus 5, err := none })
        = BailOut ErrorCode.kNotImplemented 5
            { pos := 1, cur := tK TokenKind.plus 5, err := none } :=
  ⟨((C8_first_error_wins [tK TokenKind.plus 5]
      { pos := 1, cur := tK TokenKind.plus 5, err := none }
      ErrorCode.kNotImplemented 5).2.1 rfl).1,
    (C8_first_error_wins [tK TokenKind.plus 5]
      { pos := 1, cur := tK TokenKind.plus 5, err := none }
      ErrorCode.kNotImplemented 5).2.2.2 rfl 3⟩

/-! Claims about the frame effects of the type-name parsers. -/

/-- A string of the form a with scope operator and b is never empty. -/
theorem append_scope_ne_empty (a b : String) : a ++ "::" ++ b ≠ "" := by
  intro h
  have h2 := congrArg String.data h
  simp [String.data_append] at h2

/-- ParseNestedNameSpecifier returns immediately when the current token
is not an identifier. -/
theorem ParseNestedNameSpecifier_not_ident (env : Env) (n : Nat) (s : State)
    (h : s.cur.kind ≠ TokenKind.identifier) :
    ParseNestedNameSpecifier env n s = ("", s) := by
  cases n <;> simp [ParseNestedNameSpecifier, h]

/-- ParseTypeName returns immediately when the current token is not an
identifier. -/
theorem ParseTypeName_not_ident (env : Env) (n : Nat) (s : State)
    (h : s.cur.kind ≠ TokenKind.identifier) :
    ParseTypeName env n s = ("", s) := by
  cases n <;> simp [ParseTypeName, h]

/-- C10: whenever ParseNestedNameSpecifier returns the empty string, the
token-stream position, the current token and the whole parser state are
exactly as they were at entry: the failing paths only inspect look-ahead
or roll their tentative snapshot back. -/
theorem C10_nested_name_specifier_frame (env : Env) (n : Nat) (s : State)
    (h : (ParseNestedNameSpecifier env n s).1 = "") :
    (ParseNestedNameSpecifier env n s).2 = s := by
  cases n with
  | zero => rfl
  | succ m =>
      simp only [ParseNestedNameSpecifier] at h ⊢
      split_ifs at h ⊢ with hc1 hc2 hc3 hc4
      · rfl
      · exact absurd h (append_scope_ne_empty _ _)
      · exact absurd h (append_scope_ne_empty _ _)
      · rfl
      · rfl

/-- C10 witness: with the current token an identifier followed by a
less-than token but no committing scope operator, the tentative
template-id attempt is rolled back and the state is returned intact. -/
theorem C10_nested_name_specifier_frame_witness :
    (ParseNestedNameSpecifier
          { input := [tIdent "A" 0, tK TokenKind.less 1, tNum 1 10 2],
            ctx := {} } 50
          { pos := 1, cur := tIdent "A" 0, err := none }).2
      = { pos := 1, cur := tIdent "A" 0, err := none } :=
  C10_nested_name_specifier_frame
    { input := [tIdent "A" 0, tK TokenKind.less 1, tNum 1 10 2], ctx := {} }
    50 { pos := 1, cur := tIdent "A" 0, err := none } (by decide)

/-- C2 counterexample: the claim says a failed attempt at the
user-defined simple_type_specifier form consumes no token.  On the
token sequence scope-operator then plus, the attempt is made (the
current token is no cv qualifier and no fundamental type keyword), the
required type_name is empty, ParseTypeSpecifier returns false, yet the
position advanced from 1 to 2: the optional leading scope operator was
consumed and never given back. -/
theorem C2_counterexample :
    (ParseTypeSpecifier envScopePlus 50 {} stateScopePlus).1 = false ∧
      (ParseTypeSpecifier envScopePlus 50 {} stateScopePlus).2.2.pos = 2 ∧
      stateScopePlus.pos = 1 := by
  refine ⟨?_, ?_, ?_⟩ <;> decide

/-- C2 amended: a failed attempt at the user-defined form consumes no
token provided the attempt begins at a token that is neither the scope
operator nor an identifier (the claim as stated fails when a leading
scope operator or a nested-name prefix was consumed before the empty
type_name was discovered). -/
theorem C2_failed_attempt_frame (env : Env) (n : Nat) (d : TypeDeclaration)
    (s : State)
    (h1 : IsCvQualifier s.cur = false)
    (h2 : IsSimpleTypeSpecifierKeyword s.cur = false)
    (h3 : s.cur.kind ≠ TokenKind.coloncolon)
    (h4 : s.cur.kind ≠ TokenKind.identifier) :
    ParseTypeSpecifier env (n + 1) d s = (false, d, s) := by
  simp [ParseTypeSpecifier, h1, h2, h3,
    ParseNestedNameSpecifier_not_ident env n s h4,
    ParseTypeName_not_ident env n s h4]

/-- C2 witness: at a plus token the attempt fails with the state intact. -/
theorem C2_failed_attempt_frame_witness :
    ParseTypeSpecifier envScopePlus 50 {}
        { pos := 2, cur := tK TokenKind.plus 2, err := none }
      = (false, {}, { pos := 2, cur := tK TokenKind.plus 2, err := none }) :=
  C2_failed_attempt_frame envScopePlus 49 {}
    { pos := 2, cur := tK TokenKind.plus 2, err := none }
    (by decide) (by decide) (by decide) (by decide)

/-! Claims about the tentative cast parse. -/

/-- C4: when the current token opens a parenthesis and the tentative
type-id attempt fails to resolve a base type, the rollback restores the
token position, the current token and the error slot exactly, so the
parse continues as if the attempt had never happened: parsing the cast
expression equals parsing the unary expression (which re-reads the
parenthesis as a parenthesized expression) from the very same state. -/
theorem C4_tentative_rollback (env : Env) (n : Nat) (s : State)
    (hp : s.cur.kind = TokenKind.l_paren)
    (hres : ResolveTypeFromTypeDecl env.ctx
        (ParseTypeId env n (ConsumeToken env.input s)).1 = none) :
    ParseCastExpression env (n + 1) s = ParseUnaryExpression env n s := by
  simp [ParseCastExpression, hp, hres]

/-- C4 witness: on the input left-parenthesis foo right-parenthesis
with foo a known value but not a known type, the tentative attempt is
rejected, the rolled-back parse equals the direct parenthesized parse,
and the resulting node is the identifier foo. -/
theorem C4_tentative_rollback_witness :
    ParseCastExpression envParenKnownValue 100 stateParenKnownValue
        = ParseUnaryExpression envParenKnownValue 99 stateParenKnownValue ∧
      (ParseCastExpression envParenKnownValue 100 stateParenKnownValue).1
        = Node.identifier "foo" false :=
  ⟨C4_tentative_rollback envParenKnownValue 99 stateParenKnownValue
      (by decide) (by decide),
    by decide⟩

/-! Claims about the error code at a missing operand. -/

/-- C1 counterexample: the claim says a required primary expression at
end-of-input records kUnknown.  On the truncated input of literal one
followed by the left-shift operator, and likewise on a parenthesized
known type with no operand following, the recorded code is
kInvalidExpressionSyntax, which differs from kUnknown. -/
theorem C1_counterexample :
    (Run envTruncatedShift 100).2.map (fun e => e.code)
        = some ErrorCode.kInvalidExpressionSyntax ∧
      (Run envParenKnownType 100).2.map (fun e => e.code)
        = some ErrorCode.kInvalidExpressionSyntax ∧
      ErrorCode.kInvalidExpressionSyntax ≠ ErrorCode.kUnknown := by
  refine ⟨?_, ?_, ?_⟩ <;> decide

/-- C1 amended: whenever the parser requires a primary expression but
the current token is end-of-input (and no error is recorded yet), the
parse fails with an error whose code is kInvalidExpressionSyntax, the
code of the unexpected-token bail-out of ParsePrimaryExpression, not
kUnknown. -/
theorem C1_primary_at_eof (env : Env) (n : Nat) (s : State)
    (h1 : s.cur.kind = TokenKind.eof) (h2 : s.err = none) :
    (ParsePrimaryExpression env (n + 1) s).1 = Node.error ∧
      (ParsePrimaryExpression env (n + 1) s).2.err =
        some { code := ErrorCode.kInvalidExpressionSyntax, loc := s.cur.loc } := by
  simp [ParsePrimaryExpression, h1, BailOut, h2]

/-- C1 witness: the state at end-of-input after the truncated shift
input records kInvalidExpressionSyntax. -/
theorem C1_primary_at_eof_witness :
    (ParsePrimaryExpression envTruncatedShift 10
          { pos := 3, cur := eofToken, err := none }).2.err
      = some { code := ErrorCode.kInvalidExpressionSyntax, loc := 0 } :=
  (C1_primary_at_eof envTruncatedShift 9
    { pos := 3, cur := eofToken, err := none } rfl rfl).2

/-! The error discipline across the whole parser: a returned error
sentinel always comes with a recorded error. -/

/-- A parse result is sound when the error sentinel implies a recorded
error. -/
def ErrOk (r : Node × State) : Prop :=
  r.1 = Node.error → r.2.err.isSome = true

/-- Soundness of a precedence-loop result, relative to the incoming
left-hand side: if the error sentinel can only be passed in along with
a recorded error, the loop result is sound. -/
def LoopOk (lhs : Node) (s : State) (r : Node × State) : Prop :=
  (lhs = Node.error → s.err.isSome = true) → ErrOk r

/-- Running out of fuel bails out, so the result is sound. -/
theorem errOk_outOfFuel (s : State) : ErrOk (outOfFuel s) :=
  fun _ => BailOut_err_isSome _ _ _

/-- When declarator application yields no type it has bailed out. -/
theorem resolveTypeDeclarators_none_err (ty : CType) (ops : List TokenKind)
    (s : State) (h : (ResolveTypeDeclarators ty ops s).1 = none) :
    (ResolveTypeDeclarators ty ops s).2.err.isSome = true := by
  induction ops generalizing ty s with
  | nil => simp [ResolveTypeDeclarators] at h
  | cons tk rest ih =>
      simp only [ResolveTypeDeclarators] at h ⊢
      split_ifs at h ⊢ <;>
        first
          | exact BailOut_err_isSome _ _ _
          | exact ih _ _ h

/-- ParseIntegerLiteral returns a sound result. -/
theorem errOk_ParseIntegerLiteral (ctx : Ctx) (lit : NumLit) (tok : Token)
    (s : State) : ErrOk (ParseIntegerLiteral ctx lit tok s) := by
  unfold ErrOk ParseIntegerLiteral
  split
  · exact fun _ => BailOut_err_isSome _ _ _
  · intro h; simp at h

/-- ParseFloatingLiteral returns a sound result. -/
theorem errOk_ParseFloatingLiteral (lit : NumLit) (tok : Token) (s : State) :
    ErrOk (ParseFloatingLiteral lit tok s) := by
  unfold ErrOk ParseFloatingLiteral
  split
  · exact fun _ => BailOut_err_isSome _ _ _
  · intro h; simp at h

/-- ParseNumericConstant returns a sound result. -/
theorem errOk_ParseNumericConstant (ctx : Ctx) (tok : Token) (s : State) :
    ErrOk (ParseNumericConstant ctx tok s) := by
  simp only [ParseNumericConstant]
  split_ifs
  · exact fun _ => BailOut_err_isSome _ _ _
  · exact errOk_ParseFloatingLiteral _ _ _
  · exact errOk_ParseIntegerLiteral _ _ _ _
  · exact fun _ => BailOut_err_isSome _ _ _

/-- ParseNumericLiteral returns a sound result. -/
theorem errOk_ParseNumericLiteral (env : Env) (s : State) :
    ErrOk (ParseNumericLiteral env s) := by
  unfold ErrOk ParseNumericLiteral
  intro h
  rw [ConsumeToken_err]
  exact errOk_ParseNumericConstant _ _ _ h

/-- ParseBooleanLiteral never returns the error sentinel. -/
theorem errOk_ParseBooleanLiteral (env : Env) (s : State) :
    ErrOk (ParseBooleanLiteral env s) := by
  unfold ErrOk ParseBooleanLiteral
  intro h
  simp at h

/-- ParsePointerLiteral never returns the error sentinel. -/
theorem errOk_ParsePointerLiteral (env : Env) (s : State) :
    ErrOk (ParsePointerLiteral env s) := by
  unfold ErrOk ParsePointerLiteral
  intro h
  simp at h

/-- Every expression-level parse function returns a sound result: the
error sentinel is only ever returned with an error recorded in the
final state.  Proved for all the mutually recursive functions at once
by induction on the fuel. -/
theorem errOk_parsers : ∀ fuel : Nat,
    (∀ env s, ErrOk (ParseExpression env fuel s)) ∧
    (∀ env s, ErrOk (ParseAssignmentExpression env fuel s)) ∧
    (∀ env s, ErrOk (ParseConditionalExpression env fuel s)) ∧
    (∀ env s, ErrOk (ParseLogicalOrExpression env fuel s)) ∧
    (∀ env lhs s, LoopOk lhs s (ParseLogicalOrLoop env fuel lhs s)) ∧
    (∀ env s, ErrOk (ParseLogicalAndExpression env fuel s)) ∧
    (∀ env lhs s, LoopOk lhs s (ParseLogicalAndLoop env fuel lhs s)) ∧
    (∀ env s, ErrOk (ParseInclusiveOrExpression env fuel s)) ∧
    (∀ env lhs s, LoopOk lhs s (ParseInclusiveOrLoop env fuel lhs s)) ∧
    (∀ env s, ErrOk (ParseExclusiveOrExpression env fuel s)) ∧
    (∀ env lhs s, LoopOk lhs s (ParseExclusiveOrLoop env fuel lhs s)) ∧
    (∀ env s, ErrOk (ParseAndExpression env fuel s)) ∧
    (∀ env lhs s, LoopOk lhs s (ParseAndLoop env fuel lhs s)) ∧
    (∀ env s, ErrOk (ParseEqualityExpression env fuel s)) ∧
    (∀ env lhs s, LoopOk lhs s (ParseEqualityLoop env fuel lhs s)) ∧
    (∀ env s, ErrOk (ParseRelationalExpression env fuel s)) ∧
    (∀ env lhs s, LoopOk lhs s (ParseRelationalLoop env fuel lhs s)) ∧
    (∀ env s, ErrOk (ParseShiftExpression env fuel s)) ∧
    (∀ env lhs s, LoopOk lhs s (ParseShiftLoop env fuel lhs s)) ∧
    (∀ env s, ErrOk (ParseAdditiveExpression env fuel s)) ∧
    (∀ env lhs s, LoopOk lhs s (ParseAdditiveLoop env fuel lhs s)) ∧
    (∀ env s, ErrOk (ParseMultiplicativeExpression env fuel s)) ∧
    (∀ env lhs s, LoopOk lhs s (ParseMultiplicativeLoop env fuel lhs s)) ∧
    (∀ env s, ErrOk (ParseCastExpression env fuel s)) ∧
    (∀ env s, ErrOk (ParseUnaryExpression env fuel s)) ∧
    (∀ env s, ErrOk (ParsePostfixExpression env fuel s)) ∧
    (∀ env lhs s, LoopOk lhs s (ParsePostfixLoop env fuel lhs s)) ∧
    (∀ env s, ErrOk (ParsePrimaryExpression env fuel s)) := by
  intro fuel
  induction fuel with
  | zero =>
      refine ⟨?_, ?_, ?_, ?_, ?_, ?_, ?_, ?_, ?_, ?_, ?_, ?_, ?_, ?_, ?_, ?_,
        ?_, ?_, ?_, ?_, ?_, ?_, ?_, ?_, ?_, ?_, ?_, ?_⟩ <;>
        first
          | exact fun env s => errOk_outOfFuel s
          | exact fun env lhs s h => h
  | succ n ih =>
      obtain ⟨ihExpr, ihAssign, ihCond, ihLor, ihLorL, ihLand, ihLandL, ihIor,
        ihIorL, ihXor, ihXorL, ihAnd, ihAndL, ihEq, ihEqL, ihRel, ihRelL,
        ihShift, ihShiftL, ihAdd, ihAddL, ihMul, ihMulL, ihCast, ihUnary,
        ihPostfix, ihPostfixL, ihPrimary⟩ := ih
      refine ⟨?_, ?_, ?_, ?_, ?_, ?_, ?_, ?_, ?_, ?_, ?_, ?_, ?_, ?_, ?_, ?_,
        ?_, ?_, ?_, ?_, ?_, ?_, ?_, ?_, ?_, ?_, ?_, ?_⟩
      -- ParseExpression
      · intro env s
        simp only [ParseExpression]
        exact ihAssign env s
      -- ParseAssignmentExpression
      · intro env s
        simp only [ParseAssignmentExpression]
        exact ihCond env s
      -- ParseConditionalExpression
      · intro env s
        simp only [ParseConditionalExpression]
        split
        · intro h; simp at h
        · exact ihLor env s
      -- ParseLogicalOrExpression
      · intro env s
        simp only [ParseLogicalOrExpression]
        exact ihLorL env _ _ (ihLand env s)
      -- ParseLogicalOrLoop
      · intro env lhs s h
        simp only [ParseLogicalOrLoop]
        split
        · exact ihLorL env _ _ (fun hh => absurd hh (by simp))
        · exact h
      -- ParseLogicalAndExpression
      · intro env s
        simp only [ParseLogicalAndExpression]
        exact ihLandL env _ _ (ihIor env s)
      -- ParseLogicalAndLoop
      · intro env lhs s h
        simp only [ParseLogicalAndLoop]
        split
        · exact ihLandL env _ _ (fun hh => absurd hh (by simp))
        · exact h
      -- ParseInclusiveOrExpression
      · intro env s
        simp only [ParseInclusiveOrExpression]
        exact ihIorL env _ _ (ihXor env s)
      -- ParseInclusiveOrLoop
      · intro env lhs s h
        simp only [ParseInclusiveOrLoop]
        split
        · exact ihIorL env _ _ (fun hh => absurd hh (by simp))
        · exact h
      -- ParseExclusiveOrExpression
      · intro env s
        simp only [ParseExclusiveOrExpression]
        exact ihXorL env _ _ (ihAnd env s)
      -- ParseExclusiveOrLoop
      · intro env lhs s h
        simp only [ParseExclusiveOrLoop]
        split
        · exact ihXorL env _ _ (fun hh => absurd hh (by simp))
        · exact h
      -- ParseAndExpression
      · intro env s
        simp only [ParseAndExpression]
        exact ihAndL env _ _ (ihEq env s)
      -- ParseAndLoop
      · intro env lhs s h
        simp only [ParseAndLoop]
        split
        · exact ihAndL env _ _ (fun hh => absurd hh (by simp))
        · exact h
      -- ParseEqualityExpression
      · intro env s
        simp only [ParseEqualityExpression]
        exact ihEqL env _ _ (ihRel env s)
      -- ParseEqualityLoop
      · intro env lhs s h
        simp only [ParseEqualityLoop]
        split
        · exact ihEqL env _ _ (fun hh => absurd hh (by simp))
        · exact h
      -- ParseRelationalExpression
      · intro env s
        simp only [ParseRelationalExpression]
        exact ihRelL env _ _ (ihShift env s)
      -- ParseRelationalLoop
      · intro env lhs s h
        simp only [ParseRelationalLoop]
        split
        · exact ihRelL env _ _ (fun hh => absurd hh (by simp))
        · exact h
      -- ParseShiftExpression
      · intro env s
        simp only [ParseShiftExpression]
        exact ihShiftL env _ _ (ihAdd env s)
      -- ParseShiftLoop
      · intro env lhs s h
        simp only [ParseShiftLoop]
        split
        · exact ihShiftL env _ _ (fun hh => absurd hh (by simp))
        · exact h
      -- ParseAdditiveExpression
      · intro env s
        simp only [ParseAdditiveExpression]
        exact ihAddL env _ _ (ihMul env s)
      -- ParseAdditiveLoop
      · intro env lhs s h
        simp only [ParseAdditiveLoop]
        split
        · exact ihAddL env _ _ (fun hh => absurd hh (by simp))
        · exact h
      -- ParseMultiplicativeExpression
      · intro env s
        simp only [ParseMultiplicativeExpression]
        exact ihMulL env _ _ (ihCast env s)
      -- ParseMultiplicativeLoop
      · intro env lhs s h
        simp only [ParseMultiplicativeLoop]
        split
        · exact ihMulL env _ _ (fun hh => absurd hh (by simp))
        · exact h
      -- ParseCastExpression
      · intro env s
        simp only [ParseCastExpression]
        split
        · split
          · split
            · intro _
              next heq _ =>
                exact resolveTypeDeclarators_none_err _ _ _ heq
            · intro h; simp at h
          · exact ihUnary env s
        · exact ihUnary env s
      -- ParseUnaryExpression
      · intro env s
        simp only [ParseUnaryExpression]
        split
        · intro h; simp at h
        · exact ihPostfix env s
      -- ParsePostfixExpression
      · intro env s
        simp only [ParsePostfixExpression]
        exact ihPostfixL env _ _ (ihPrimary env s)
      -- ParsePostfixLoop
      · intro env lhs s h
        simp only [ParsePostfixLoop]
        split
        · exact ihPostfixL env _ _ (fun hh => absurd hh (by simp))
        · split
          · exact fun _ => BailOut_err_isSome _ _ _
          · split
            · exact ihPostfixL env _ _ (fun hh => absurd hh (by simp))
            · exact h
      -- ParsePrimaryExpression
      · intro env s
        simp only [ParsePrimaryExpression]
        split
        · exact errOk_ParseNumericLiteral env s
        · split
          · exact errOk_ParseBooleanLiteral env s
          · split
            · exact errOk_ParsePointerLiteral env s
            · split
              · split
                · intro h; simp at h
                · exact fun _ => BailOut_err_isSome _ _ _
              · split
                · split
                  · intro h; simp at h
                  · exact fun _ => BailOut_err_isSome _ _ _
                · split
                  · intro h
                    rw [ConsumeToken_err]
                    exact Expect_err_isSome _ _ (ihExpr env _ h)
                  · exact fun _ => BailOut_err_isSome _ _ _

/-- C5: a parse records an error if and only if the returned root node
is the error sentinel.  If an error was recorded during parsing, Run
returns the error node; and whenever Run returns the error node, an
error was recorded. -/
theorem C5_error_iff_error_sentinel (env : Env) (fuel : Nat) :
    (Run env fuel).2.isSome = true ↔ (Run env fuel).1 = Node.error := by
  have hok := (errOk_parsers fuel).1 env (ConsumeToken env.input initialState)
  simp only [Run]
  rcases he : (Expect TokenKind.eof
      (ParseExpression env fuel (ConsumeToken env.input initialState)).2).err
    with _ | e
  · simp only [he]
    constructor
    · intro h; simp at h
    · intro h
      exfalso
      have h2 := Expect_err_isSome TokenKind.eof _ (hok h)
      rw [he] at h2
      simp at h2
  · simp [he]

end LldbEval
